import Mathlib

/-!
# Commerce-Flow: verification of the order saga and the cart reducer

Shallow embedding of two parts of the Commerce-Flow repository:

* the `appReducer` state reducer of `src/AppContext.tsx` (the `ADD_TO_CART`
  case and its companions), over the `CartItem`/`Product` types declared in
  the repository's types module;
* the `OrderSaga.processOrder` orchestrator sketched in the architecture
  document embedded in `src/load-test-scenarios.js` (lines 1113-1154).
  The `SagaTransaction` helper class that `processOrder` instantiates is not
  present anywhere in the repository; its `execute`/`commit`/`rollback`
  semantics are modelled from the specification (generic runner keeping a
  stack of compensating actions, run in reverse order on failure, halting on
  the first compensation failure).

JavaScript numbers are modelled as `Int` (all arithmetic in scope is exact
integer arithmetic well inside the double-precision range); the ambient
clock values `Date.now().toString()` and `new Date().toISOString()` are
passed to the reducer as explicit string arguments.
-/

namespace CommerceFlow

/-! ## Types from the repository's types module (`User`, `Product`, `CartItem`)

Only the fields the reducer reads or copies are carried; the remaining
fields of `User` and `Product` (preferences, images, ratings, ...) are never
inspected by `appReducer` and are elided. -/

structure User where
  id : String
  email : String
  deriving Repr, DecidableEq

structure Product where
  id : String
  name : String
  price : Int
  deriving Repr, DecidableEq

structure CartItem where
  id : String
  productId : String
  product : Product
  quantity : Int
  addedAt : String
  deriving Repr, DecidableEq

/-- `AppState` of `src/AppContext.tsx`. -/
structure AppState where
  user : Option User
  cart : List CartItem
  isAuthenticated : Bool
  loading : Bool
  error : Option String
  deriving Repr, DecidableEq

/-- `AppAction` of `src/AppContext.tsx`. -/
inductive AppAction where
  | setUser (payload : Option User)
  | setCart (payload : List CartItem)
  | addToCart (product : Product) (quantity : Int)
  | updateCartItem (id : String) (quantity : Int)
  | removeFromCart (id : String)
  | clearCart
  | setLoading (payload : Bool)
  | setError (payload : Option String)
  deriving Repr, DecidableEq

/-- `appReducer` of `src/AppContext.tsx` (lines 35-116).  `now` stands for
`Date.now().toString()` and `iso` for `new Date().toISOString()`, the two
ambient clock reads in the `ADD_TO_CART` branch. -/
def appReducer (now iso : String) (state : AppState) (action : AppAction) : AppState :=
  match action with
  | .setUser payload =>
      { state with user := payload, isAuthenticated := payload.isSome }
  | .setCart payload =>
      { state with cart := payload }
  | .addToCart product qty =>
      match state.cart.find? (fun item => item.productId == product.id) with
      | some existingItem =>
          { state with
              cart := state.cart.map (fun item =>
                if item.id == existingItem.id then
                  { item with quantity := item.quantity + qty }
                else item) }
      | none =>
          { state with
              cart := state.cart ++
                [{ id := now, productId := product.id, product := product,
                   quantity := qty, addedAt := iso }] }
  | .updateCartItem id qty =>
      { state with
          cart := state.cart.map (fun item =>
            if item.id == id then { item with quantity := qty } else item) }
  | .removeFromCart id =>
      { state with cart := state.cart.filter (fun item => item.id != id) }
  | .clearCart =>
      { state with cart := [] }
  | .setLoading b =>
      { state with loading := b }
  | .setError e =>
      { state with error := e }

/-! ## The order saga (`OrderSaga.processOrder`, `src/load-test-scenarios.js` 1113-1154)

The coordinator drives one `CreateOrderRequest` through four steps (reserve
inventory, charge payment, create order, send confirmation), registering a
compensating action for each succeeded step.  The collaborators (inventory
service, payment service, order repository, notification service) live
outside the repository; one run's interaction with them is captured by an
`Env` of call outcomes, and the run's observable behaviour is the list of
collaborator calls it makes plus the returned result. -/

/-- A line item of an order request (product identifier, quantity, unit
price). -/
structure LineItem where
  productId : String
  quantity : Nat
  unitPrice : Nat
  deriving Repr, DecidableEq

/-- The payment instruction of an order request (method reference, amount,
currency).  This is the whole of `orderRequest.payment`, the argument the
code passes to `paymentService.charge`. -/
structure PaymentInstruction where
  methodRef : String
  amount : Nat
  currency : String
  deriving Repr, DecidableEq

/-- `CreateOrderRequest`: requesting user, line items, shipping address,
payment instruction. -/
structure OrderRequest where
  userId : String
  items : List LineItem
  shippingAddress : String
  payment : PaymentInstruction
  deriving Repr, DecidableEq

/-- One collaborator call made by the coordinator, with the arguments the
code passes at the call site:
`inventoryService.reserve(orderRequest.items)`,
`inventoryService.cancelReservation(reservation.id)`,
`paymentService.charge(orderRequest.payment)`,
`paymentService.refund(payment.id)`,
`orderRepository.create({...orderRequest, inventoryReservationId, paymentId})`,
`orderRepository.cancel(order.id)`,
`notificationService.sendOrderConfirmation(order)`. -/
inductive Call where
  | reserve (items : List LineItem)
  | cancelReservation (reservationId : Nat)
  | charge (payment : PaymentInstruction)
  | refund (paymentId : Nat)
  | createOrder (req : OrderRequest) (inventoryReservationId : Nat) (paymentId : Nat)
  | cancelOrder (orderId : Nat)
  | sendOrderConfirmation (orderId : Nat)
  deriving Repr, DecidableEq

/-- A registered compensating action, as passed to `saga.execute`:
steps 1-3 register `cancelReservation`, `refund`, `cancelOrder` applied to
the artifact the forward action returned; step 4 registers the no-op
closure. -/
inductive Comp where
  | cancelReservation (reservationId : Nat)
  | refund (paymentId : Nat)
  | cancelOrder (orderId : Nat)
  | noop
  deriving Repr, DecidableEq

/-- The error taxonomy of a run: one constructor per failing step, plus
`compensationError`, which carries the original triggering error together
with the compensating action that failed. -/
inductive SagaError where
  | outOfStock
  | paymentDeclined
  | storeError
  | dispatchError
  | compensationError (original : SagaError) (failed : Comp)
  deriving Repr, DecidableEq

/-- The value `processOrder` resolves with: `{ success: true, order }` or
`{ success: false, error }`. -/
inductive OrderResult where
  | success (orderId : Nat)
  | failure (error : SagaError)
  deriving Repr, DecidableEq

def OrderResult.isSuccess : OrderResult → Bool
  | .success _ => true
  | .failure _ => false

/-- Modelled from the spec: the terminal status of a `SagaRun`
(`committed | aborted | rolled-back | rollback-failed`); the pseudocode
keeps no explicit status, the specification's state machine assigns
`Aborted` to a step-1 failure, `RolledBack` to a completed rollback and
`RollbackFailed` when a compensating action fails. -/
inductive SagaStatus where
  | committed
  | aborted
  | rolledBack
  | rollbackFailed
  deriving Repr, DecidableEq

/-- The outcomes the external collaborators return during one run: the
artifact id produced by each successful forward call (`none` meaning the
call fails), and whether each compensating call succeeds. -/
structure Env where
  reserve : Option Nat
  charge : Option Nat
  create : Option Nat
  notify : Bool
  releaseOk : Bool
  refundOk : Bool
  cancelOrderOk : Bool
  deriving Repr, DecidableEq

/-- Modelled from the spec: running one registered compensating action
against the collaborators; returns whether it succeeded and the collaborator
calls it made (the no-op compensation of step 4 calls nothing and cannot
fail). -/
def Comp.run (env : Env) : Comp → Bool × List Call
  | .cancelReservation rid => (env.releaseOk, [Call.cancelReservation rid])
  | .refund pid => (env.refundOk, [Call.refund pid])
  | .cancelOrder oid => (env.cancelOrderOk, [Call.cancelOrder oid])
  | .noop => (true, [])

/-- Modelled from the spec: `SagaTransaction.rollback` — absent from the
repository — runs the registered compensations most recent first and halts
at the first one that fails, returning the failed compensation (if any) and
the calls made. -/
def rollback (env : Env) : List Comp → Option Comp × List Call
  | [] => (none, [])
  | c :: rest =>
      let step := c.run env
      if step.1 then
        let tail := rollback env rest
        (tail.1, step.2 ++ tail.2)
      else
        (some c, step.2)

/-- Modelled from the spec: the outcome of the `catch` branch of
`processOrder` (`await saga.rollback(); return { success: false, error }`).
A clean rollback returns the original triggering error and marks the run
rolled-back; a failed compensation halts the rollback, marks the run
rollback-failed and surfaces both the original error and the compensation
failure. -/
def finishRollback (env : Env) (original : SagaError) (stack : List Comp)
    (calls : List Call) : OrderResult × SagaStatus × List Call :=
  match rollback env stack with
  | (none, rbCalls) => (.failure original, .rolledBack, calls ++ rbCalls)
  | (some c, rbCalls) =>
      (.failure (.compensationError original c), .rollbackFailed, calls ++ rbCalls)

/-- `OrderSaga.processOrder` (`src/load-test-scenarios.js` 1114-1153):
four `saga.execute` calls in order, each pushing its compensation on
success; a failing forward call throws into the `catch` branch, which rolls
the registered compensations back.  A step-1 failure has nothing to roll
back and aborts. -/
def processOrder (env : Env) (req : OrderRequest) :
    OrderResult × SagaStatus × List Call :=
  let calls1 := [Call.reserve req.items]
  match env.reserve with
  | none => (.failure .outOfStock, .aborted, calls1)
  | some rid =>
      let calls2 := calls1 ++ [Call.charge req.payment]
      match env.charge with
      | none => finishRollback env .paymentDeclined [Comp.cancelReservation rid] calls2
      | some pid =>
          let calls3 := calls2 ++ [Call.createOrder req rid pid]
          match env.create with
          | none =>
              finishRollback env .storeError
                [Comp.refund pid, Comp.cancelReservation rid] calls3
          | some oid =>
              let calls4 := calls3 ++ [Call.sendOrderConfirmation oid]
              if env.notify then
                (.success oid, .committed, calls4)
              else
                finishRollback env .dispatchError
                  [Comp.cancelOrder oid, Comp.refund pid, Comp.cancelReservation rid]
                  calls4

/-! ### Observations over a run's call trace -/

def Call.isReserve : Call → Bool
  | .reserve _ => true
  | _ => false

def Call.isCharge : Call → Bool
  | .charge _ => true
  | _ => false

def Call.isCreate : Call → Bool
  | .createOrder _ _ _ => true
  | _ => false

def Call.isNotify : Call → Bool
  | .sendOrderConfirmation _ => true
  | _ => false

def Call.isRelease : Call → Bool
  | .cancelReservation _ => true
  | _ => false

def Call.isRefund : Call → Bool
  | .refund _ => true
  | _ => false

def Call.isCancelOrder : Call → Bool
  | .cancelOrder _ => true
  | _ => false

/-- A compensating collaborator call (inventory release, payment refund, or
order cancellation). -/
def Call.isCompensation (c : Call) : Bool :=
  c.isRelease || c.isRefund || c.isCancelOrder

/-- The arguments of the payment-capture calls in a trace. -/
def chargeArgs (t : List Call) : List PaymentInstruction :=
  t.filterMap fun c =>
    match c with
    | .charge p => some p
    | _ => none

/-- Modelled from the spec: the Order Store collaborator (absent from the
repository) persists exactly one order with status `"confirmed"` for each
successful `CreateConfirmed` call; a failed create persists nothing. -/
def confirmedOrdersCreated (env : Env) (t : List Call) : List (Nat × String) :=
  t.filterMap fun c =>
    match c with
    | .createOrder _ _ _ =>
        match env.create with
        | some oid => some (oid, "confirmed")
        | none => none
    | _ => none

/-! ### Concrete fixtures used by witnesses and counterexamples -/

/-- A sample order request: two line items, card payment of 100 USD. -/
def sampleReq : OrderRequest :=
  { userId := "u1"
  , items := [⟨"sku1", 2, 30⟩, ⟨"sku2", 1, 40⟩]
  , shippingAddress := "1 Main St"
  , payment := ⟨"card-7", 100, "USD"⟩ }

/-- Every collaborator call succeeds. -/
def envAllOk : Env := ⟨some 1, some 2, some 3, true, true, true, true⟩

/-- Inventory reservation fails (insufficient stock). -/
def envOutOfStock : Env := ⟨none, some 2, some 3, true, true, true, true⟩

/-- Payment capture fails after a successful reservation. -/
def envDeclined : Env := ⟨some 1, none, some 3, true, true, true, true⟩

/-- The order-store write fails after reservation and capture succeed. -/
def envStoreFail : Env := ⟨some 1, some 2, none, true, true, true, true⟩

/-- The order-store write fails and the subsequent refund also fails. -/
def envRefundFail : Env := ⟨some 1, some 2, none, true, true, false, true⟩

/-- Steps 1-3 succeed and only the notification dispatch fails. -/
def envNotifyFail : Env := ⟨some 1, some 2, some 3, false, true, true, true⟩

/-- All steps succeed; the reservation id is 10. -/
def envRidA : Env := ⟨some 10, some 2, some 3, true, true, true, true⟩

/-- All steps succeed; the reservation id is 20, everything else as in
`envRidA`. -/
def envRidB : Env := ⟨some 20, some 2, some 3, true, true, true, true⟩

def prodLaptop : Product := ⟨"p1", "Laptop", 999⟩

def prodMouse : Product := ⟨"p2", "Mouse", 25⟩

/-- A state whose two cart items share the id `"dup"` but hold different
products. -/
def dupIdState : AppState :=
  { user := none
  , cart := [⟨"dup", "p1", prodLaptop, 1, "t0"⟩, ⟨"dup", "p2", prodMouse, 1, "t0"⟩]
  , isAuthenticated := false
  , loading := false
  , error := none }

/-- A state with a single cart item, ids distinct. -/
def oneItemState : AppState :=
  { user := none
  , cart := [⟨"c1", "p1", prodLaptop, 1, "t0"⟩]
  , isAuthenticated := false
  , loading := false
  , error := none }

/-! ## Theorems -/

/-- Claim C5: if the atomic inventory reservation (step 1) fails, the run
returns OutOfStock immediately: the only collaborator call is the single
reserve call — no payment, order-store, notification or compensation call is
made. -/
theorem outOfStock_aborts_immediately (env : Env) (req : OrderRequest)
    (h : env.reserve = none) :
    processOrder env req = (.failure .outOfStock, .aborted, [Call.reserve req.items]) := by
  simp [processOrder, h]

/-- Witness for C5 at a concrete environment and request. -/
theorem outOfStock_aborts_immediately_witness :
    envOutOfStock.reserve = none ∧
    processOrder envOutOfStock sampleReq =
      (.failure .outOfStock, .aborted, [Call.reserve sampleReq.items]) :=
  ⟨rfl, outOfStock_aborts_immediately envOutOfStock sampleReq rfl⟩

/-- Claim C2: when all four steps succeed the run returns success with the
created order id, is committed, calls each collaborator forward operation
exactly once (reserve, charge, create, send confirmation), makes no
compensation call, and exactly one order with status "confirmed" is
created. -/
theorem submit_success_once_each (env : Env) (req : OrderRequest)
    (rid pid oid : Nat)
    (h1 : env.reserve = some rid) (h2 : env.charge = some pid)
    (h3 : env.create = some oid) (h4 : env.notify = true) :
    (processOrder env req).1 = .success oid ∧
    (processOrder env req).2.1 = .committed ∧
    (processOrder env req).2.2.countP Call.isReserve = 1 ∧
    (processOrder env req).2.2.countP Call.isCharge = 1 ∧
    (processOrder env req).2.2.countP Call.isCreate = 1 ∧
    (processOrder env req).2.2.countP Call.isNotify = 1 ∧
    (processOrder env req).2.2.countP Call.isCompensation = 0 ∧
    confirmedOrdersCreated env (processOrder env req).2.2 = [(oid, "confirmed")] := by
  simp [processOrder, h1, h2, h3, h4, confirmedOrdersCreated, List.countP_cons,
    Call.isReserve, Call.isCharge, Call.isCreate, Call.isNotify,
    Call.isCompensation, Call.isRelease, Call.isRefund, Call.isCancelOrder,
    List.filterMap]

/-- Witness for C2 at a concrete environment and request. -/
theorem submit_success_once_each_witness :
    envAllOk.reserve = some 1 ∧ envAllOk.charge = some 2 ∧
    envAllOk.create = some 3 ∧ envAllOk.notify = true ∧
    (processOrder envAllOk sampleReq).1 = .success 3 ∧
    (processOrder envAllOk sampleReq).2.1 = .committed ∧
    (processOrder envAllOk sampleReq).2.2.countP Call.isReserve = 1 ∧
    (processOrder envAllOk sampleReq).2.2.countP Call.isCharge = 1 ∧
    (processOrder envAllOk sampleReq).2.2.countP Call.isCreate = 1 ∧
    (processOrder envAllOk sampleReq).2.2.countP Call.isNotify = 1 ∧
    (processOrder envAllOk sampleReq).2.2.countP Call.isCompensation = 0 ∧
    confirmedOrdersCreated envAllOk (processOrder envAllOk sampleReq).2.2 =
      [(3, "confirmed")] := by
  refine ⟨rfl, rfl, rfl, rfl, ?_⟩
  have h := submit_success_once_each envAllOk sampleReq 1 2 3 rfl rfl rfl rfl
  exact ⟨h.1, h.2.1, h.2.2.1, h.2.2.2.1, h.2.2.2.2.1, h.2.2.2.2.2.1,
    h.2.2.2.2.2.2.1, h.2.2.2.2.2.2.2⟩

/-- Claim C3: when reservation and capture succeed but the order-store write
fails, the run returns StoreError, is marked rolled-back, and the trace is
exactly reserve, charge, create, then the compensations in strict reverse
order: one refund followed by one release.  `hr`/`hl` say the two
compensation calls themselves succeed (their failure is claim C4's
scenario). -/
theorem storeError_compensation_order (env : Env) (req : OrderRequest)
    (rid pid : Nat)
    (h1 : env.reserve = some rid) (h2 : env.charge = some pid)
    (h3 : env.create = none) (hr : env.refundOk = true) (hl : env.releaseOk = true) :
    processOrder env req =
      (.failure .storeError, .rolledBack,
        [Call.reserve req.items, Call.charge req.payment,
         Call.createOrder req rid pid, Call.refund pid,
         Call.cancelReservation rid]) := by
  simp [processOrder, finishRollback, rollback, Comp.run, h1, h2, h3, hr, hl]

/-- Witness for C3 at a concrete environment and request. -/
theorem storeError_compensation_order_witness :
    envStoreFail.reserve = some 1 ∧ envStoreFail.charge = some 2 ∧
    envStoreFail.create = none ∧ envStoreFail.refundOk = true ∧
    envStoreFail.releaseOk = true ∧
    processOrder envStoreFail sampleReq =
      (.failure .storeError, .rolledBack,
        [Call.reserve sampleReq.items, Call.charge sampleReq.payment,
         Call.createOrder sampleReq 1 2, Call.refund 2,
         Call.cancelReservation 1]) :=
  ⟨rfl, rfl, rfl, rfl, rfl,
    storeError_compensation_order envStoreFail sampleReq 1 2 rfl rfl rfl rfl rfl⟩

/-- Claim C4: when the order-store write fails and the subsequent refund
call also fails, the rollback halts: the release of the reservation is never
attempted, the run is marked rollback-failed, and the result is a
CompensationError carrying both the original StoreError and the failed
refund, distinct (by constructor) from every ordinary failure result. -/
theorem compensation_failure_halts (env : Env) (req : OrderRequest)
    (rid pid : Nat)
    (h1 : env.reserve = some rid) (h2 : env.charge = some pid)
    (h3 : env.create = none) (hr : env.refundOk = false) :
    processOrder env req =
      (.failure (.compensationError .storeError (Comp.refund pid)), .rollbackFailed,
        [Call.reserve req.items, Call.charge req.payment,
         Call.createOrder req rid pid, Call.refund pid]) := by
  simp [processOrder, finishRollback, rollback, Comp.run, h1, h2, h3, hr]

/-- Witness for C4 at a concrete environment and request. -/
theorem compensation_failure_halts_witness :
    envRefundFail.reserve = some 1 ∧ envRefundFail.charge = some 2 ∧
    envRefundFail.create = none ∧ envRefundFail.refundOk = false ∧
    processOrder envRefundFail sampleReq =
      (.failure (.compensationError .storeError (Comp.refund 2)), .rollbackFailed,
        [Call.reserve sampleReq.items, Call.charge sampleReq.payment,
         Call.createOrder sampleReq 1 2, Call.refund 2]) :=
  ⟨rfl, rfl, rfl, rfl,
    compensation_failure_halts envRefundFail sampleReq 1 2 rfl rfl rfl rfl⟩

/-- Claim C6: when reservation succeeds and payment capture fails, the run
returns PaymentDeclined and the trace is exactly reserve, charge, then one
release carrying the reservation id produced by step 1 — no order-store or
notification call.  `hl` says the release call itself succeeds (a failing
compensation is the CompensationError scenario of the spec's taxonomy). -/
theorem paymentDeclined_releases_reservation (env : Env) (req : OrderRequest)
    (rid : Nat)
    (h1 : env.reserve = some rid) (h2 : env.charge = none)
    (hl : env.releaseOk = true) :
    processOrder env req =
      (.failure .paymentDeclined, .rolledBack,
        [Call.reserve req.items, Call.charge req.payment,
         Call.cancelReservation rid]) := by
  simp [processOrder, finishRollback, rollback, Comp.run, h1, h2, hl]

/-- Witness for C6 at a concrete environment and request. -/
theorem paymentDeclined_releases_reservation_witness :
    envDeclined.reserve = some 1 ∧ envDeclined.charge = none ∧
    envDeclined.releaseOk = true ∧
    processOrder envDeclined sampleReq =
      (.failure .paymentDeclined, .rolledBack,
        [Call.reserve sampleReq.items, Call.charge sampleReq.payment,
         Call.cancelReservation 1]) :=
  ⟨rfl, rfl, rfl,
    paymentDeclined_releases_reservation envDeclined sampleReq 1 rfl rfl rfl⟩

/-- Claim C1 counterexample: with steps 1-3 succeeding and only the
notification dispatch failing, the run does NOT return success and three
compensation calls are made — the order is rolled back, contradicting the
claimed degraded-success behaviour. -/
theorem notifyFailure_rollsBack_cex :
    (processOrder envNotifyFail sampleReq).1.isSuccess = false ∧
    (processOrder envNotifyFail sampleReq).2.2.countP Call.isCompensation = 3 := by
  decide

/-- Claim C1 (amended): when steps 1-3 succeed and only the notification
dispatch fails, the coordinator rolls the whole order back — the trace is
the four forward calls followed by cancel-order, refund and release (each
once, in that order), the run is marked rolled-back and Submit returns a
failure carrying the dispatch error; no degraded-success result exists. -/
theorem notifyFailure_rollsBack (env : Env) (req : OrderRequest)
    (rid pid oid : Nat)
    (h1 : env.reserve = some rid) (h2 : env.charge = some pid)
    (h3 : env.create = some oid) (h4 : env.notify = false)
    (hc : env.cancelOrderOk = true) (hr : env.refundOk = true)
    (hl : env.releaseOk = true) :
    processOrder env req =
      (.failure .dispatchError, .rolledBack,
        [Call.reserve req.items, Call.charge req.payment,
         Call.createOrder req rid pid, Call.sendOrderConfirmation oid,
         Call.cancelOrder oid, Call.refund pid, Call.cancelReservation rid]) := by
  simp [processOrder, finishRollback, rollback, Comp.run, h1, h2, h3, h4, hc, hr, hl]

/-- Witness for the amended C1 at a concrete environment and request. -/
theorem notifyFailure_rollsBack_witness :
    envNotifyFail.reserve = some 1 ∧ envNotifyFail.charge = some 2 ∧
    envNotifyFail.create = some 3 ∧ envNotifyFail.notify = false ∧
    envNotifyFail.cancelOrderOk = true ∧ envNotifyFail.refundOk = true ∧
    envNotifyFail.releaseOk = true ∧
    processOrder envNotifyFail sampleReq =
      (.failure .dispatchError, .rolledBack,
        [Call.reserve sampleReq.items, Call.charge sampleReq.payment,
         Call.createOrder sampleReq 1 2, Call.sendOrderConfirmation 3,
         Call.cancelOrder 3, Call.refund 2, Call.cancelReservation 1]) :=
  ⟨rfl, rfl, rfl, rfl, rfl, rfl, rfl,
    notifyFailure_rollsBack envNotifyFail sampleReq 1 2 3 rfl rfl rfl rfl rfl rfl rfl⟩

/-- Claim C7: in every run the coordinator makes at most one release call
and at most one refund call, makes no release call when the reservation step
did not succeed, and no refund call when the capture step did not
succeed. -/
theorem compensation_at_most_once (env : Env) (req : OrderRequest) :
    (processOrder env req).2.2.countP Call.isRelease ≤ 1 ∧
    (processOrder env req).2.2.countP Call.isRefund ≤ 1 ∧
    (env.reserve = none → (processOrder env req).2.2.countP Call.isRelease = 0) ∧
    (env.charge = none → (processOrder env req).2.2.countP Call.isRefund = 0) := by
  obtain ⟨res, chg, cre, ntf, rel, ref, cano⟩ := env
  cases res <;> cases chg <;> cases cre <;> cases ntf <;> cases rel <;>
    cases ref <;> cases cano <;>
    simp [processOrder, finishRollback, rollback, Comp.run, List.countP_cons,
      Call.isRelease, Call.isRefund]

/-- Witness for C7 at a concrete environment and request. -/
theorem compensation_at_most_once_witness :
    (processOrder envOutOfStock sampleReq).2.2.countP Call.isRelease ≤ 1 ∧
    (processOrder envOutOfStock sampleReq).2.2.countP Call.isRefund ≤ 1 ∧
    (envOutOfStock.reserve = none →
      (processOrder envOutOfStock sampleReq).2.2.countP Call.isRelease = 0) ∧
    (envOutOfStock.charge = none →
      (processOrder envOutOfStock sampleReq).2.2.countP Call.isRefund = 0) :=
  compensation_at_most_once envOutOfStock sampleReq

/-- Claim C8 counterexample: in the run where only the notification step
fails, the coordinator calls `orderRepository.cancel` (once), so its Order
Store interaction is not limited to the single create of step 3. -/
theorem orderCancel_called_cex :
    (processOrder envNotifyFail sampleReq).2.2.countP Call.isCancelOrder = 1 := by
  decide

/-- Claim C8 (amended): the coordinator makes at most one order-store
create call, and its only other Order Store operation is a cancel of the
created order, invoked exactly once when and only when steps 1-3 succeeded
and the notification step failed (it is the first compensation of that
rollback); no update or delete operation exists in the coordinator. -/
theorem orderStore_interactions (env : Env) (req : OrderRequest) :
    (processOrder env req).2.2.countP Call.isCreate ≤ 1 ∧
    (processOrder env req).2.2.countP Call.isCancelOrder =
      cond (env.reserve.isSome && env.charge.isSome && env.create.isSome &&
        !env.notify) 1 0 := by
  obtain ⟨res, chg, cre, ntf, rel, ref, cano⟩ := env
  cases res <;> cases chg <;> cases cre <;> cases ntf <;> cases rel <;>
    cases ref <;> cases cano <;>
    simp [processOrder, finishRollback, rollback, Comp.run, List.countP_cons,
      Call.isCreate, Call.isCancelOrder]

/-- Claim C9 counterexample: two runs whose step-1 reservation ids differ
(10 vs 20) issue byte-for-byte identical payment-capture calls, so the
capture is not tagged with the reservation id produced by step 1. -/
theorem charge_untagged_cex :
    envRidA.reserve = some 10 ∧ envRidB.reserve = some 20 ∧
    chargeArgs (processOrder envRidA sampleReq).2.2 =
      chargeArgs (processOrder envRidB sampleReq).2.2 := by
  decide

/-- Claim C9 (amended): every run that reaches step 2 makes exactly one
payment-capture call, whose argument is exactly the order request's payment
instruction (`orderRequest.payment`); the reservation id from step 1 does
not appear in the capture call. -/
theorem charge_receives_payment_only (env : Env) (req : OrderRequest)
    (rid : Nat) (h : env.reserve = some rid) :
    chargeArgs (processOrder env req).2.2 = [req.payment] := by
  obtain ⟨res, chg, cre, ntf, rel, ref, cano⟩ := env
  cases res with
  | none => simp at h
  | some r =>
      cases chg <;> cases cre <;> cases ntf <;> cases rel <;> cases ref <;>
        cases cano <;>
        simp [processOrder, finishRollback, rollback, Comp.run, chargeArgs,
          List.filterMap]

/-- Witness for the amended C9 at a concrete environment and request. -/
theorem charge_receives_payment_only_witness :
    envRidA.reserve = some 10 ∧
    chargeArgs (processOrder envRidA sampleReq).2.2 = [sampleReq.payment] :=
  ⟨rfl, charge_receives_payment_only envRidA sampleReq 10 rfl⟩

/-- Claim C10 counterexample: in a state whose two cart items share the id
`"dup"` (products `"p1"` and `"p2"`, each quantity 1), adding product
`"p1"` increments BOTH quantities — the item with productId `"p2"` does not
stay unchanged, because the update matches on the found item's `id`, not on
`productId`. -/
theorem addToCart_duplicate_ids_cex :
    dupIdState.cart.map CartItem.productId = ["p1", "p2"] ∧
    prodLaptop.id = "p1" ∧
    dupIdState.cart.map CartItem.quantity = [1, 1] ∧
    (appReducer "n1" "t1" dupIdState (.addToCart prodLaptop 1)).cart.map
      CartItem.quantity = [2, 2] := by
  decide

/-- Claim C10 (amended): provided the cart's item ids are pairwise
distinct, an ADD_TO_CART action leaves user, isAuthenticated, loading and
error unchanged and: if the cart contains an item whose productId equals
the added product's id, the found item (at some position `k`) has its
quantity increased by the action's quantity while every other position is
unchanged and the length is preserved; otherwise exactly one new item with
the given product and quantity is appended. -/
theorem addToCart_updates_or_appends (now iso : String) (st : AppState)
    (p : Product) (q : Int)
    (hnodup : (st.cart.map CartItem.id).Nodup) :
    ((appReducer now iso st (.addToCart p q)).user = st.user ∧
     (appReducer now iso st (.addToCart p q)).isAuthenticated = st.isAuthenticated ∧
     (appReducer now iso st (.addToCart p q)).loading = st.loading ∧
     (appReducer now iso st (.addToCart p q)).error = st.error) ∧
    (∀ ex, st.cart.find? (fun it => it.productId == p.id) = some ex →
      (appReducer now iso st (.addToCart p q)).cart.length = st.cart.length ∧
      ∃ k, ∃ hk : k < st.cart.length,
        st.cart[k] = ex ∧
        ∀ i, ∀ hi : i < st.cart.length,
          ∀ hi2 : i < (appReducer now iso st (.addToCart p q)).cart.length,
          (appReducer now iso st (.addToCart p q)).cart[i] =
            if i = k then { ex with quantity := ex.quantity + q }
            else st.cart[i]) ∧
    (st.cart.find? (fun it => it.productId == p.id) = none →
      (appReducer now iso st (.addToCart p q)).cart =
        st.cart ++ [{ id := now, productId := p.id, product := p,
                      quantity := q, addedAt := iso }]) := by
  refine ⟨?_, ?_, ?_⟩
  · cases hfind : st.cart.find? (fun it => it.productId == p.id) <;>
      simp [appReducer, hfind]
  · intro ex hfind
    have hex : ex ∈ st.cart := List.mem_of_find?_eq_some hfind
    obtain ⟨k, hk, hget⟩ := List.getElem_of_mem hex
    have hlen : (appReducer now iso st (.addToCart p q)).cart.length =
        st.cart.length := by
      simp [appReducer, hfind]
    refine ⟨hlen, k, hk, hget, ?_⟩
    intro i hi hi2
    have hmap : (appReducer now iso st (.addToCart p q)).cart =
        st.cart.map (fun item =>
          if item.id == ex.id then { item with quantity := item.quantity + q }
          else item) := by
      simp [appReducer, hfind]
    by_cases hik : i = k
    · subst hik
      simp [hmap, hget]
    · have him : i < (st.cart.map CartItem.id).length := by simpa
      have hkm : k < (st.cart.map CartItem.id).length := by simpa
      have hid : ¬ st.cart[i].id = ex.id := by
        intro hcontra
        have h1 : (st.cart.map CartItem.id)[i] = (st.cart.map CartItem.id)[k] := by
          simp [hcontra, ← hget]
        exact hik (hnodup.getElem_inj_iff.mp h1)
      simp [hmap, hid, hik]
  · intro hfind
    simp [appReducer, hfind]

/-- Witness for the amended C10 at a concrete state (one cart item, ids
distinct), product and quantity. -/
theorem addToCart_updates_or_appends_witness :
    (oneItemState.cart.map CartItem.id).Nodup ∧
    (((appReducer "n2" "t2" oneItemState (.addToCart prodLaptop 2)).user =
        oneItemState.user ∧
      (appReducer "n2" "t2" oneItemState (.addToCart prodLaptop 2)).isAuthenticated =
        oneItemState.isAuthenticated ∧
      (appReducer "n2" "t2" oneItemState (.addToCart prodLaptop 2)).loading =
        oneItemState.loading ∧
      (appReducer "n2" "t2" oneItemState (.addToCart prodLaptop 2)).error =
        oneItemState.error) ∧
    (∀ ex, oneItemState.cart.find? (fun it => it.productId == prodLaptop.id) = some ex →
      (appReducer "n2" "t2" oneItemState (.addToCart prodLaptop 2)).cart.length =
        oneItemState.cart.length ∧
      ∃ k, ∃ hk : k < oneItemState.cart.length,
        oneItemState.cart[k] = ex ∧
        ∀ i, ∀ hi : i < oneItemState.cart.length,
          ∀ hi2 : i < (appReducer "n2" "t2" oneItemState
            (.addToCart prodLaptop 2)).cart.length,
          (appReducer "n2" "t2" oneItemState (.addToCart prodLaptop 2)).cart[i] =
            if i = k then { ex with quantity := ex.quantity + 2 }
            else oneItemState.cart[i]) ∧
    (oneItemState.cart.find? (fun it => it.productId == prodLaptop.id) = none →
      (appReducer "n2" "t2" oneItemState (.addToCart prodLaptop 2)).cart =
        oneItemState.cart ++ [{ id := "n2", productId := prodLaptop.id,
                                product := prodLaptop, quantity := 2,
                                addedAt := "t2" }])) :=
  ⟨by decide,
    addToCart_updates_or_appends "n2" "t2" oneItemState prodLaptop 2 (by decide)⟩

end CommerceFlow
